import Mathlib

/-!
Verification of the UR-script emitter module `simple_ur_script.py`
(robot_control) of the Robotic-3D-Capture repository.

The module is a pure text compiler: it turns poses (planes) and numeric
motion parameters into line-oriented UR-script command strings.  We embed
it shallowly: Python floats are modelled as rationals (ℚ), the C-style
`%.Nf` fixed-point rendering is modelled by `fmtFixed`, and functions that
can raise in Python (`move_j` on a list whose length is not 6,
`add_condition` on an unrecognized discriminant, where the local `script`
variable is never bound and the subsequent `+=` raises) return `Option`.

The Rhino geometry library (`Rhino.Geometry`) and the repository's `utils`
module (`utils.matrix_to_axis_angle`) lie outside the sources given
under `src/`; a `Plane` here therefore carries, besides its origin, the
axis-angle vector that the out-of-scope rotation extraction yields for its
orientation, so the emitter is verified over arbitrary values of that
extraction.
-/

namespace SimpleURScript

/-- Scaled value of `q` at `p` decimal places: nearest integer to `q * 10^p`. -/
def scaled (p : Nat) (q : ℚ) : ℤ := ⌊q * (10 : ℚ) ^ p + 1/2⌋

/-- Decimal rendering of a nonnegative scaled integer with `p` fractional digits. -/
def fmtOfScaled (p : Nat) (n : ℤ) : String :=
  let m := n.toNat
  let fs := toString (m % 10 ^ p)
  toString (m / 10 ^ p) ++ "." ++ String.mk (List.replicate (p - fs.length) '0') ++ fs

/-- Fixed-point decimal rendering of a rational, modelling C `%.pf` formatting
(used by Python's `%` operator on floats). -/
def fmtFixed (p : Nat) (q : ℚ) : String :=
  if q < 0 then "-" ++ fmtOfScaled p (scaled p (-q)) else fmtOfScaled p (scaled p q)

/-- Constant `MAX_ACCEL = 2.5` of `simple_ur_script.py`. -/
def MAX_ACCEL : ℚ := 2.5

/-- Constant `MAX_VELOCITY = 2.5` of `simple_ur_script.py`. -/
def MAX_VELOCITY : ℚ := 2.5

/-- The clamp written in the source as
`x = LIMIT if (abs(x) > LIMIT) else abs(x)`. -/
def clampLimit (limit x : ℚ) : ℚ := if |x| > limit then limit else |x|

/-- Model of a `Rhino.Geometry` plane as the emitter consumes it: the origin
(millimeters) together with the axis-angle vector that the out-of-scope
`utils.matrix_to_axis_angle(rg.Transform.PlaneToPlane(rg.Plane.WorldXY, plane))`
computation yields for its orientation (the geometry code is not part of the
sources under verification, so its result is carried as data). -/
structure Plane where
  originX : ℚ
  originY : ℚ
  originZ : ℚ
  axisAngleX : ℚ
  axisAngleY : ℚ
  axisAngleZ : ℚ
deriving DecidableEq

/-- `rg.Plane.WorldXY`: origin at 0, identity orientation (axis-angle 0). -/
def WorldXY : Plane := ⟨0, 0, 0, 0, 0, 0⟩

/-- The `"p[" + ("%.4f,"*6)[:-1] + "]" % tuple(pose)` pose formatter shared by
the motion commands. -/
def pose6Fmt (vals : List ℚ) : String :=
  "p[" ++ String.intercalate "," (vals.map (fmtFixed 4)) ++ "]"

/-- The `_pose` list `[OriginX/1000, OriginY/1000, OriginZ/1000, aa0, aa1, aa2]`
rendered through `pose6Fmt`. -/
def poseFmt (pl : Plane) : String :=
  pose6Fmt [pl.originX/1000, pl.originY/1000, pl.originZ/1000,
            pl.axisAngleX, pl.axisAngleY, pl.axisAngleZ]

/-- `move_l`: clamps accel and vel, renders
`"movel(%s, a = %.2f, v = %.2f)\n"`. -/
def move_l (plane_to : Plane) (accel vel : ℚ) : String :=
  "movel(" ++ poseFmt plane_to ++ ", a = " ++ fmtFixed 2 (clampLimit MAX_ACCEL accel)
    ++ ", v = " ++ fmtFixed 2 (clampLimit MAX_VELOCITY vel) ++ ")\n"

/-- `move_l_blend`: clamps accel, vel and blend radius, renders
`"movel(%s, a = %.3f, v = %.3f, r = %.3f)\n"`. -/
def move_l_blend (plane_to : Plane) (accel vel blend_radius : ℚ) : String :=
  "movel(" ++ poseFmt plane_to ++ ", a = " ++ fmtFixed 3 (clampLimit MAX_ACCEL accel)
    ++ ", v = " ++ fmtFixed 3 (clampLimit MAX_VELOCITY vel)
    ++ ", r = " ++ fmtFixed 3 (max 0 blend_radius) ++ ")\n"

/-- `move_p_blend`: identical to `move_l_blend` with keyword `movep`. -/
def move_p_blend (plane_to : Plane) (accel vel blend_radius : ℚ) : String :=
  "movep(" ++ poseFmt plane_to ++ ", a = " ++ fmtFixed 3 (clampLimit MAX_ACCEL accel)
    ++ ", v = " ++ fmtFixed 3 (clampLimit MAX_VELOCITY vel)
    ++ ", r = " ++ fmtFixed 3 (max 0 blend_radius) ++ ")\n"

/-- `move_j`: no clamping; renders `"movej(%s, a = %.2f, v = %.2f)\n"` with
`%s = "[" + ("%.2f,"*6)[:-1] + "]" % tuple(joints)`.  The `%` application
raises a `TypeError` unless the tuple has exactly 6 entries, modelled as
`none`. -/
def move_j (joints : List ℚ) (accel vel : ℚ) : Option String :=
  if joints.length = 6 then
    some ("movej(" ++ ("[" ++ String.intercalate "," (joints.map (fmtFixed 2)) ++ "]")
      ++ ", a = " ++ fmtFixed 2 accel ++ ", v = " ++ fmtFixed 2 vel ++ ")\n")
  else none

/-- `set_tcp_by_plane`: axis-angle of `ref_plane` unless it is `WorldXY`
(exact-equality fast path), offsets converted mm→m, rendered as
`"set_tcp(%s)\n"`. -/
def set_tcp_by_plane (x_offset y_offset z_offset : ℚ) (ref_plane : Plane) : String :=
  let aa : ℚ × ℚ × ℚ :=
    if ref_plane ≠ WorldXY then
      (ref_plane.axisAngleX, ref_plane.axisAngleY, ref_plane.axisAngleZ)
    else (0, 0, 0)
  "set_tcp(" ++ pose6Fmt [x_offset/1000, y_offset/1000, z_offset/1000, aa.1, aa.2.1, aa.2.2]
    ++ ")\n"

/-- `set_tcp_by_angles`: the composite rotation `rX * rY * rZ` and its
axis-angle extraction happen in the out-of-scope geometry code
(`rg.Transform.Rotation`, `utils.matrix_to_axis_angle`); the emitter renders
the resulting axis-angle with the mm→m-converted offsets as
`"set_tcp(%s)\n"`.  The extraction result is taken as the `axis_angle`
argument. -/
def set_tcp_by_angles (x_offset y_offset z_offset : ℚ) (axis_angle : ℚ × ℚ × ℚ) : String :=
  "set_tcp(" ++ pose6Fmt [x_offset/1000, y_offset/1000, z_offset/1000,
    axis_angle.1, axis_angle.2.1, axis_angle.2.2] ++ ")\n"

/-- `popup`: renders `'popup("%s","%s") \n'` (arguments via `%s`). -/
def popup (message title : String) : String :=
  "popup(\"" ++ message ++ "\",\"" ++ title ++ "\") \n"

/-- `sleep`: renders `"sleep(%s) \n"`; the `%s` rendering of the numeric
argument is taken as a string. -/
def sleep (time : String) : String :=
  "sleep(" ++ time ++ ") \n"

/-- `set_digital_out`: renders `"set_digital_out(%s,%s)\n"`. -/
def set_digital_out (id signal : String) : String :=
  "set_digital_out(" ++ id ++ "," ++ signal ++ ")\n"

/-- `get_digital_in`: renders `"get_standard_digital_in(%s) \n"`. -/
def get_digital_in (id : String) : String :=
  "get_standard_digital_in(" ++ id ++ ") \n"

/-- `set_standard_analog_out`: renders `"set_standard_analog_out(%s,%s)\n"`. -/
def set_standard_analog_out (n f : String) : String :=
  "set_standard_analog_out(" ++ n ++ "," ++ f ++ ")\n"

/-- `textmsg`: renders `'textmsg("%s","%s") \n'`. -/
def textmsg (s1 s2 : String) : String :=
  "textmsg(\"" ++ s1 ++ "\",\"" ++ s2 ++ "\") \n"

/-- Python's `s.replace("\n", "")`: removes every newline character. -/
def replaceNewlines (s : String) : String := ⟨s.data.filter (· != '\n')⟩

/-- `multi_conditions`: `c1.replace("\n","") + "and " + c2.replace("\n","")`. -/
def multi_conditions (c1 c2 : String) : String :=
  replaceNewlines c1 ++ "and " ++ replaceNewlines c2

/-- The tail `con.replace("\n","") + "\t==\t"` followed by the boolean
literal chunk of `add_condition`. -/
def conditionTail (con : String) (b : Bool) : String :=
  replaceNewlines con ++ "\t==\t" ++ (if b then " True: \n" else " False: \n")

/-- `add_condition`: discriminant 0 selects `"if \t"`, 1 `"while \t"`,
2 `"elif \t"`; any other value leaves the local `script` unassigned so the
following `script +=` raises `UnboundLocalError`, modelled as `none`. -/
def add_condition (type : ℤ) (con : String) (b : Bool) : Option String :=
  if type = 0 then some ("if \t" ++ conditionTail con b)
  else if type = 1 then some ("while \t" ++ conditionTail con b)
  else if type = 2 then some ("elif \t" ++ conditionTail con b)
  else none

/-- `end_condition`: the fixed terminator line. -/
def end_condition : String := "end\n"

/-- A string's final character is a newline. -/
def endsWithNewline (s : String) : Bool := s.data.getLast? == some '\n'

/-- A string contains no newline character at all. -/
def newlineFree (s : String) : Bool := s.data.all (· != '\n')

/-! Helper lemmas. -/

lemma fmtFixed_eval (p : Nat) (q : ℚ) (n : ℤ) (h0 : ¬ q < 0) (h : scaled p q = n) :
    fmtFixed p q = fmtOfScaled p n := by
  simp only [fmtFixed, if_neg h0, h]

lemma clampLimit_eq_min (limit x : ℚ) : clampLimit limit x = min |x| limit := by
  simp only [clampLimit, min_def]
  split_ifs with h1 h2 <;> first | rfl | linarith

lemma clampLimit_le (limit x : ℚ) : clampLimit limit x ≤ limit := by
  rw [clampLimit_eq_min]; exact min_le_right _ _

lemma clampLimit_nonneg (limit x : ℚ) (h : 0 ≤ limit) : 0 ≤ clampLimit limit x := by
  rw [clampLimit_eq_min]; exact le_min (abs_nonneg x) h

lemma move_l_eq (pl : Plane) (a v : ℚ) :
    move_l pl a v = "movel(" ++ poseFmt pl ++ ", a = " ++ fmtFixed 2 (min |a| MAX_ACCEL)
      ++ ", v = " ++ fmtFixed 2 (min |v| MAX_VELOCITY) ++ ")\n" := by
  simp only [move_l, clampLimit_eq_min]

lemma move_l_blend_eq (pl : Plane) (a v r : ℚ) :
    move_l_blend pl a v r = "movel(" ++ poseFmt pl ++ ", a = " ++ fmtFixed 3 (min |a| MAX_ACCEL)
      ++ ", v = " ++ fmtFixed 3 (min |v| MAX_VELOCITY)
      ++ ", r = " ++ fmtFixed 3 (max 0 r) ++ ")\n" := by
  simp only [move_l_blend, clampLimit_eq_min]

lemma move_p_blend_eq (pl : Plane) (a v r : ℚ) :
    move_p_blend pl a v r = "movep(" ++ poseFmt pl ++ ", a = " ++ fmtFixed 3 (min |a| MAX_ACCEL)
      ++ ", v = " ++ fmtFixed 3 (min |v| MAX_VELOCITY)
      ++ ", r = " ++ fmtFixed 3 (max 0 r) ++ ")\n" := by
  simp only [move_p_blend, clampLimit_eq_min]

lemma fmt4_one : fmtFixed 4 ((1000 : ℚ)/1000) = "1.0000" :=
  (fmtFixed_eval 4 (1000/1000) 10000 (by norm_num) (by unfold scaled; norm_num)).trans (by decide)

lemma fmt4_zero_div : fmtFixed 4 ((0 : ℚ)/1000) = "0.0000" :=
  (fmtFixed_eval 4 (0/1000) 0 (by norm_num) (by unfold scaled; norm_num)).trans (by decide)

lemma fmt4_zero : fmtFixed 4 (0 : ℚ) = "0.0000" :=
  (fmtFixed_eval 4 0 0 (by norm_num) (by unfold scaled; norm_num)).trans (by decide)

lemma fmt2_max : fmtFixed 2 ((5 : ℚ)/2) = "2.50" :=
  (fmtFixed_eval 2 (5/2) 250 (by norm_num) (by unfold scaled; norm_num)).trans (by decide)

lemma fmt2_ten : fmtFixed 2 (10 : ℚ) = "10.00" :=
  (fmtFixed_eval 2 10 1000 (by norm_num) (by unfold scaled; norm_num)).trans (by decide)

lemma fmt2_twenty : fmtFixed 2 (20 : ℚ) = "20.00" :=
  (fmtFixed_eval 2 20 2000 (by norm_num) (by unfold scaled; norm_num)).trans (by decide)

lemma fmt2_thirty : fmtFixed 2 (30 : ℚ) = "30.00" :=
  (fmtFixed_eval 2 30 3000 (by norm_num) (by unfold scaled; norm_num)).trans (by decide)

lemma fmt2_forty : fmtFixed 2 (40 : ℚ) = "40.00" :=
  (fmtFixed_eval 2 40 4000 (by norm_num) (by unfold scaled; norm_num)).trans (by decide)

lemma fmt2_fifty : fmtFixed 2 (50 : ℚ) = "50.00" :=
  (fmtFixed_eval 2 50 5000 (by norm_num) (by unfold scaled; norm_num)).trans (by decide)

lemma fmt2_sixty : fmtFixed 2 (60 : ℚ) = "60.00" :=
  (fmtFixed_eval 2 60 6000 (by norm_num) (by unfold scaled; norm_num)).trans (by decide)

lemma fmt2_hundred : fmtFixed 2 (100 : ℚ) = "100.00" :=
  (fmtFixed_eval 2 100 10000 (by norm_num) (by unfold scaled; norm_num)).trans (by decide)

lemma fmt3_one : fmtFixed 3 (1 : ℚ) = "1.000" :=
  (fmtFixed_eval 3 1 1000 (by norm_num) (by unfold scaled; norm_num)).trans (by decide)

lemma fmt3_one_div : fmtFixed 3 ((1000 : ℚ)/1000) = "1.000" :=
  (fmtFixed_eval 3 (1000/1000) 1000 (by norm_num) (by unfold scaled; norm_num)).trans (by decide)

lemma fmt3_zero_div : fmtFixed 3 ((0 : ℚ)/1000) = "0.000" :=
  (fmtFixed_eval 3 (0/1000) 0 (by norm_num) (by unfold scaled; norm_num)).trans (by decide)

lemma fmt3_zero : fmtFixed 3 (0 : ℚ) = "0.000" :=
  (fmtFixed_eval 3 0 0 (by norm_num) (by unfold scaled; norm_num)).trans (by decide)

lemma endsWithNewline_append (s t : String) (h : endsWithNewline t = true) :
    endsWithNewline (s ++ t) = true := by
  simp only [endsWithNewline, beq_iff_eq] at h ⊢
  rw [String.data_append, List.getLast?_append, h]
  rfl

lemma filter_ne_newline_all (l : List Char) :
    (l.filter (· != '\n')).all (· != '\n') = true := by
  rw [List.all_eq_true]
  intro a ha
  exact (List.mem_filter.mp ha).2

lemma multi_conditions_newlineFree (c1 c2 : String) :
    newlineFree (multi_conditions c1 c2) = true := by
  simp only [multi_conditions, newlineFree, replaceNewlines, String.data_append,
    List.all_append, Bool.and_eq_true]
  exact ⟨⟨filter_ne_newline_all _, by decide⟩, filter_ne_newline_all _⟩

lemma endsWithNewline_false_of_newlineFree (s : String) (h : newlineFree s = true) :
    endsWithNewline s = false := by
  simp only [newlineFree, List.all_eq_true] at h
  simp only [endsWithNewline]
  cases hl : s.data.getLast? with
  | none => rfl
  | some c =>
    have hcin : c ∈ s.data := by
      obtain ⟨hne, hx⟩ := List.mem_getLast?_eq_getLast (Option.mem_def.mpr hl)
      exact hx ▸ List.getLast_mem hne
    have hc : (c != '\n') = true := h c hcin
    simp only [beq_eq_false_iff_ne, ne_eq, Option.some.injEq]
    exact fun hcn => (bne_iff_ne.mp hc) hcn

lemma replaceNewlines_append (s t : String) :
    replaceNewlines (s ++ t) = replaceNewlines s ++ replaceNewlines t := by
  simp only [replaceNewlines, String.data_append, List.filter_append]
  rfl

lemma replaceNewlines_eq_self (s : String) (h : '\n' ∉ s.data) :
    replaceNewlines s = s := by
  obtain ⟨d⟩ := s
  simp only [replaceNewlines]
  congr 1
  exact List.filter_eq_self.mpr (fun a ha => bne_iff_ne.mpr (fun he => h (he ▸ ha)))

lemma string_append_empty (s : String) : s ++ "" = s := by
  cases s
  simp [String.instAppend, String.append]

/-! Concrete evaluations shared between theorems of a single claim. -/

lemma move_l_example :
    move_l ⟨1000, 0, 0, 0, 0, 0⟩ 5 (-3) =
      "movel(p[1.0000,0.0000,0.0000,0.0000,0.0000,0.0000], a = 2.50, v = 2.50)\n" := by
  rw [move_l_eq]
  rw [show min |(5 : ℚ)| MAX_ACCEL = 5/2 by norm_num [MAX_ACCEL]]
  rw [show min |(-3 : ℚ)| MAX_VELOCITY = 5/2 by norm_num [MAX_VELOCITY]]
  rw [fmt2_max]
  simp only [poseFmt, pose6Fmt, List.map]
  rw [fmt4_one, fmt4_zero_div, fmt4_zero]
  decide

lemma move_j_example :
    move_j [10, 20, 30, 40, 50, 60] 100 100 =
      some "movej([10.00,20.00,30.00,40.00,50.00,60.00], a = 100.00, v = 100.00)\n" := by
  simp only [move_j, List.length_cons, List.length_nil, if_pos, List.map]
  rw [fmt2_ten, fmt2_twenty, fmt2_thirty, fmt2_forty, fmt2_fifty, fmt2_sixty, fmt2_hundred]
  decide

/-- Rendering that the claim's words for `move_l_blend` prescribe: every
numeric field, the six pose fields included, at 3 decimal places. -/
def move_l_blend_spec3 (pl : Plane) (accel vel blend_radius : ℚ) : String :=
  "movel(" ++ ("p[" ++ String.intercalate ","
      ([pl.originX/1000, pl.originY/1000, pl.originZ/1000,
        pl.axisAngleX, pl.axisAngleY, pl.axisAngleZ].map (fmtFixed 3)) ++ "]")
    ++ ", a = " ++ fmtFixed 3 (clampLimit MAX_ACCEL accel)
    ++ ", v = " ++ fmtFixed 3 (clampLimit MAX_VELOCITY vel)
    ++ ", r = " ++ fmtFixed 3 (max 0 blend_radius) ++ ")\n"

lemma move_l_blend_example :
    move_l_blend ⟨1000, 0, 0, 0, 0, 0⟩ 1 1 0 =
      "movel(p[1.0000,0.0000,0.0000,0.0000,0.0000,0.0000], a = 1.000, v = 1.000, r = 0.000)\n" := by
  rw [move_l_blend_eq]
  rw [show min |(1 : ℚ)| MAX_ACCEL = 1 by norm_num [MAX_ACCEL]]
  rw [show min |(1 : ℚ)| MAX_VELOCITY = 1 by norm_num [MAX_VELOCITY]]
  rw [show max (0 : ℚ) 0 = 0 from max_self 0]
  rw [fmt3_one, fmt3_zero]
  simp only [poseFmt, pose6Fmt, List.map]
  rw [fmt4_one, fmt4_zero_div, fmt4_zero]
  decide

lemma move_l_blend_spec3_example :
    move_l_blend_spec3 ⟨1000, 0, 0, 0, 0, 0⟩ 1 1 0 =
      "movel(p[1.000,0.000,0.000,0.000,0.000,0.000], a = 1.000, v = 1.000, r = 0.000)\n" := by
  simp only [move_l_blend_spec3, List.map]
  rw [show clampLimit MAX_ACCEL 1 = 1 by rw [clampLimit_eq_min]; norm_num [MAX_ACCEL]]
  rw [show clampLimit MAX_VELOCITY 1 = 1 by rw [clampLimit_eq_min]; norm_num [MAX_VELOCITY]]
  rw [show max (0 : ℚ) 0 = 0 from max_self 0]
  rw [fmt3_one, fmt3_one_div, fmt3_zero_div, fmt3_zero]
  decide

/-! Claim theorems. -/

/-- C1: for every accel, vel and blend radius passed to `move_l`,
`move_l_blend` or `move_p_blend`, the acceleration value rendered into the
command string is `min |accel| MAX_ACCEL`, the velocity value is
`min |vel| MAX_VELOCITY`, and the blend-radius value is `max 0 blend`; the
clamped acceleration and velocity always lie in `[0, 5/2]`, and a negative
blend radius is emitted as exactly `0`. -/
theorem C1_motion_clamping (pl : Plane) (accel vel blend : ℚ) :
    move_l pl accel vel =
      "movel(" ++ poseFmt pl ++ ", a = " ++ fmtFixed 2 (min |accel| MAX_ACCEL)
        ++ ", v = " ++ fmtFixed 2 (min |vel| MAX_VELOCITY) ++ ")\n" ∧
    move_l_blend pl accel vel blend =
      "movel(" ++ poseFmt pl ++ ", a = " ++ fmtFixed 3 (min |accel| MAX_ACCEL)
        ++ ", v = " ++ fmtFixed 3 (min |vel| MAX_VELOCITY)
        ++ ", r = " ++ fmtFixed 3 (max 0 blend) ++ ")\n" ∧
    move_p_blend pl accel vel blend =
      "movep(" ++ poseFmt pl ++ ", a = " ++ fmtFixed 3 (min |accel| MAX_ACCEL)
        ++ ", v = " ++ fmtFixed 3 (min |vel| MAX_VELOCITY)
        ++ ", r = " ++ fmtFixed 3 (max 0 blend) ++ ")\n" ∧
    0 ≤ min |accel| MAX_ACCEL ∧ min |accel| MAX_ACCEL ≤ 5/2 ∧
    0 ≤ min |vel| MAX_VELOCITY ∧ min |vel| MAX_VELOCITY ≤ 5/2 ∧
    (blend < 0 → max (0 : ℚ) blend = 0) := by
  refine ⟨move_l_eq pl accel vel, move_l_blend_eq pl accel vel blend,
    move_p_blend_eq pl accel vel blend,
    le_min (abs_nonneg accel) (by norm_num [MAX_ACCEL]),
    le_trans (min_le_right _ _) (by norm_num [MAX_ACCEL]),
    le_min (abs_nonneg vel) (by norm_num [MAX_VELOCITY]),
    le_trans (min_le_right _ _) (by norm_num [MAX_VELOCITY]),
    fun h => max_eq_left h.le⟩

/-- C1 witness: instantiating `C1_motion_clamping` at blend radius `-1`
discharges the nested hypothesis `blend < 0` and yields an emitted blend
radius of exactly `0`. -/
theorem C1_motion_clamping_witness : max (0 : ℚ) (-1) = 0 :=
  (C1_motion_clamping ⟨0, 0, 0, 0, 0, 0⟩ 0 0 (-1)).2.2.2.2.2.2.2 (by norm_num)

/-- C2 counterexample: the claim's exact expected string writes `a=2.50` and
`v=2.50`, but the source format string is `"movel(%s, a = %.2f, v = %.2f)\n"`,
with spaces around each `=`, so the produced string differs from the claimed
one. -/
theorem C2_move_l_counterexample :
    move_l ⟨1000, 0, 0, 0, 0, 0⟩ 5 (-3) ≠
      "movel(p[1.0000,0.0000,0.0000,0.0000,0.0000,0.0000], a=2.50, v=2.50)\n" := by
  rw [move_l_example]
  decide

/-- C2 (amended): `move_l` on the pose with translation (1000, 0, 0) mm and
axis-angle [0,0,0], accel 5.0 and vel -3.0 returns exactly
`"movel(p[1.0000,0.0000,0.0000,0.0000,0.0000,0.0000], a = 2.50, v = 2.50)\n"`:
pose fields at 4 decimal places, accel/vel clamped and at 2 decimal places,
with a space on each side of the `=` of `a` and `v`. -/
theorem C2_move_l_exact :
    move_l ⟨1000, 0, 0, 0, 0, 0⟩ 5 (-3) =
      "movel(p[1.0000,0.0000,0.0000,0.0000,0.0000,0.0000], a = 2.50, v = 2.50)\n" :=
  move_l_example

/-- C3 counterexample: the claim's exact expected string writes `a=100.00`,
but the source format string is `"movej(%s, a = %.2f, v = %.2f)\n"`, with
spaces around each `=`, so the produced string differs from the claimed
one. -/
theorem C3_move_j_counterexample :
    move_j [10, 20, 30, 40, 50, 60] 100 100 ≠
      some "movej([10.00,20.00,30.00,40.00,50.00,60.00], a=100.00, v=100.00)\n" := by
  rw [move_j_example]
  decide

/-- C3 (amended): `move_j` applies no clamping: every 6-element joint vector
and every accel, vel are rendered unchanged at 2 decimal places, and on
`[10,20,30,40,50,60]` with accel 100 and vel 100 it returns exactly
`"movej([10.00,20.00,30.00,40.00,50.00,60.00], a = 100.00, v = 100.00)\n"`,
with a space on each side of the `=` of `a` and `v`. -/
theorem C3_move_j_no_clamping (joints : List ℚ) (accel vel : ℚ) (h : joints.length = 6) :
    move_j joints accel vel =
      some ("movej(" ++ ("[" ++ String.intercalate "," (joints.map (fmtFixed 2)) ++ "]")
        ++ ", a = " ++ fmtFixed 2 accel ++ ", v = " ++ fmtFixed 2 vel ++ ")\n") ∧
    move_j [10, 20, 30, 40, 50, 60] 100 100 =
      some "movej([10.00,20.00,30.00,40.00,50.00,60.00], a = 100.00, v = 100.00)\n" :=
  ⟨by simp only [move_j, if_pos h], move_j_example⟩

/-- C3 witness: `C3_move_j_no_clamping` applied to the concrete joint vector
`[10,20,30,40,50,60]`, discharging the length-6 hypothesis. -/
theorem C3_move_j_no_clamping_witness :
    move_j [10, 20, 30, 40, 50, 60] 100 100 =
      some "movej([10.00,20.00,30.00,40.00,50.00,60.00], a = 100.00, v = 100.00)\n" :=
  (C3_move_j_no_clamping [10, 20, 30, 40, 50, 60] 100 100 rfl).2

/-- C4 counterexample: `move_l_blend` renders the six pose fields at 4
decimal places (`"%.4f"`), not 3; at the pose with translation
(1000, 0, 0) mm its output differs from the all-3-decimal rendering the
claim prescribes. -/
theorem C4_blend_formatting_counterexample :
    move_l_blend ⟨1000, 0, 0, 0, 0, 0⟩ 1 1 0 ≠ move_l_blend_spec3 ⟨1000, 0, 0, 0, 0, 0⟩ 1 1 0 ∧
    move_l_blend ⟨1000, 0, 0, 0, 0, 0⟩ 1 1 0 =
      "movel(p[1.0000,0.0000,0.0000,0.0000,0.0000,0.0000], a = 1.000, v = 1.000, r = 0.000)\n" := by
  constructor
  · rw [move_l_blend_example, move_l_blend_spec3_example]
    decide
  · exact move_l_blend_example

/-- C4 (amended): `move_l_blend` formats accel, vel and blend radius at 3
decimal places but the six pose fields at 4 decimal places, and
`move_p_blend` produces the identically formatted string differing only in
the keyword `movep` in place of `movel`. -/
theorem C4_blend_formatting (pl : Plane) (accel vel blend : ℚ) :
    move_l_blend pl accel vel blend =
      "movel(" ++ poseFmt pl ++ ", a = " ++ fmtFixed 3 (min |accel| MAX_ACCEL)
        ++ ", v = " ++ fmtFixed 3 (min |vel| MAX_VELOCITY)
        ++ ", r = " ++ fmtFixed 3 (max 0 blend) ++ ")\n" ∧
    ∃ tail, move_l_blend pl accel vel blend = "movel" ++ tail ∧
      move_p_blend pl accel vel blend = "movep" ++ tail := by
  refine ⟨move_l_blend_eq pl accel vel blend,
    "(" ++ poseFmt pl ++ ", a = " ++ fmtFixed 3 (min |accel| MAX_ACCEL)
      ++ ", v = " ++ fmtFixed 3 (min |vel| MAX_VELOCITY)
      ++ ", r = " ++ fmtFixed 3 (max 0 blend) ++ ")\n", ?_, ?_⟩
  · rw [move_l_blend_eq, show ("movel(" : String) = "movel" ++ "(" from rfl]
    simp only [String.append_assoc]
  · rw [move_p_blend_eq, show ("movep(" : String) = "movep" ++ "(" from rfl]
    simp only [String.append_assoc]

/-- C5: `multi_conditions` strips the trailing newline from each of its two
input fragments and concatenates them with the `"and "` keyword between,
yielding a fragment whose final character is not a newline; on the two
digital-input fragments of the claim it returns exactly
`"get_standard_digital_in(0)and get_standard_digital_in(1)"`. -/
theorem C5_multi_conditions (c1 c2 : String)
    (h1 : '\n' ∉ c1.data) (h2 : '\n' ∉ c2.data) :
    multi_conditions (c1 ++ "\n") (c2 ++ "\n") = c1 ++ "and " ++ c2 ∧
    endsWithNewline (multi_conditions (c1 ++ "\n") (c2 ++ "\n")) = false ∧
    multi_conditions "get_standard_digital_in(0)\n" "get_standard_digital_in(1)\n" =
      "get_standard_digital_in(0)and get_standard_digital_in(1)" := by
  refine ⟨?_, endsWithNewline_false_of_newlineFree _ (multi_conditions_newlineFree _ _),
    by decide⟩
  simp only [multi_conditions, replaceNewlines_append,
    replaceNewlines_eq_self c1 h1, replaceNewlines_eq_self c2 h2]
  rw [show replaceNewlines "\n" = "" from by decide]
  rw [string_append_empty, string_append_empty]

/-- C5 witness: `C5_multi_conditions` applied to the two digital-input
fragments of the claim, discharging both newline-freeness hypotheses. -/
theorem C5_multi_conditions_witness :
    multi_conditions ("get_standard_digital_in(0)" ++ "\n") ("get_standard_digital_in(1)" ++ "\n") =
      "get_standard_digital_in(0)" ++ "and " ++ "get_standard_digital_in(1)" :=
  (C5_multi_conditions "get_standard_digital_in(0)" "get_standard_digital_in(1)"
    (by decide) (by decide)).1

lemma conditionTail_endsWithNewline (con : String) (b : Bool) :
    endsWithNewline (conditionTail con b) = true := by
  simp only [conditionTail]
  exact endsWithNewline_append _ _ (by cases b <;> decide)

/-- C6 counterexample: on the if-kind with expected `True`,
`add_condition` emits tab separators (`"if \t"`, `"\t==\t"`) and
`" True: \n"`, not the plain-space grammar line
`"if <condition> == True:"` the claim prescribes. -/
theorem C6_add_condition_counterexample :
    add_condition 0 "get_standard_digital_in(0)\n" true ≠
      some "if get_standard_digital_in(0) == True:\n" ∧
    add_condition 0 "get_standard_digital_in(0)\n" true =
      some "if \tget_standard_digital_in(0)\t==\t True: \n" := by
  constructor <;> decide

/-- C6 (amended): for each recognized kind, `add_condition` returns the
keyword followed by a tab, then the condition fragment with every newline
removed, then the separator `"\t==\t"`, then a space, the boolean literal,
`": "` and a newline. -/
theorem C6_add_condition (con : String) (b : Bool) :
    add_condition 0 con b =
      some ("if \t" ++ (replaceNewlines con ++ "\t==\t"
        ++ (if b then " True: \n" else " False: \n"))) ∧
    add_condition 1 con b =
      some ("while \t" ++ (replaceNewlines con ++ "\t==\t"
        ++ (if b then " True: \n" else " False: \n"))) ∧
    add_condition 2 con b =
      some ("elif \t" ++ (replaceNewlines con ++ "\t==\t"
        ++ (if b then " True: \n" else " False: \n"))) := by
  refine ⟨?_, ?_, ?_⟩ <;> norm_num [add_condition, conditionTail]

/-- C7: every emitter operation of the module is a deterministic pure
function of its inputs — two calls with identical inputs return identical
strings.  In this embedding each operation is a total function reading no
state; the module's only globals, `MAX_ACCEL` and `MAX_VELOCITY`, are
constants that no operation writes. -/
theorem C7_determinism (pl refpl : Plane) (a v r x y z : ℚ) (aa : ℚ × ℚ × ℚ)
    (joints : List ℚ) (k : ℤ) (b : Bool)
    (msg title t1 t2 i sig nCh fCh tm c1 c2 con : String) :
    move_l pl a v = move_l pl a v ∧
    move_l_blend pl a v r = move_l_blend pl a v r ∧
    move_p_blend pl a v r = move_p_blend pl a v r ∧
    move_j joints a v = move_j joints a v ∧
    set_tcp_by_plane x y z refpl = set_tcp_by_plane x y z refpl ∧
    set_tcp_by_angles x y z aa = set_tcp_by_angles x y z aa ∧
    popup msg title = popup msg title ∧
    sleep tm = sleep tm ∧
    set_digital_out i sig = set_digital_out i sig ∧
    get_digital_in i = get_digital_in i ∧
    set_standard_analog_out nCh fCh = set_standard_analog_out nCh fCh ∧
    textmsg t1 t2 = textmsg t1 t2 ∧
    multi_conditions c1 c2 = multi_conditions c1 c2 ∧
    add_condition k con b = add_condition k con b ∧
    end_condition = end_condition :=
  ⟨rfl, rfl, rfl, rfl, rfl, rfl, rfl, rfl, rfl, rfl, rfl, rfl, rfl, rfl, rfl⟩

/-- C8: no motion command rejects any rational accel/vel input: `move_l`,
`move_l_blend` and `move_p_blend` are total, and the acceleration and
velocity values they embed in the command are the clamped values, which
always lie between `0` and the configured maxima `MAX_ACCEL = MAX_VELOCITY
= 5/2`. -/
theorem C8_clamping_safety (pl : Plane) (accel vel blend : ℚ) :
    MAX_ACCEL = 5/2 ∧ MAX_VELOCITY = 5/2 ∧
    0 ≤ clampLimit MAX_ACCEL accel ∧ clampLimit MAX_ACCEL accel ≤ MAX_ACCEL ∧
    0 ≤ clampLimit MAX_VELOCITY vel ∧ clampLimit MAX_VELOCITY vel ≤ MAX_VELOCITY ∧
    move_l pl accel vel =
      "movel(" ++ poseFmt pl ++ ", a = " ++ fmtFixed 2 (clampLimit MAX_ACCEL accel)
        ++ ", v = " ++ fmtFixed 2 (clampLimit MAX_VELOCITY vel) ++ ")\n" ∧
    move_l_blend pl accel vel blend =
      "movel(" ++ poseFmt pl ++ ", a = " ++ fmtFixed 3 (clampLimit MAX_ACCEL accel)
        ++ ", v = " ++ fmtFixed 3 (clampLimit MAX_VELOCITY vel)
        ++ ", r = " ++ fmtFixed 3 (max 0 blend) ++ ")\n" ∧
    move_p_blend pl accel vel blend =
      "movep(" ++ poseFmt pl ++ ", a = " ++ fmtFixed 3 (clampLimit MAX_ACCEL accel)
        ++ ", v = " ++ fmtFixed 3 (clampLimit MAX_VELOCITY vel)
        ++ ", r = " ++ fmtFixed 3 (max 0 blend) ++ ")\n" :=
  ⟨by norm_num [MAX_ACCEL], by norm_num [MAX_VELOCITY],
   clampLimit_nonneg _ _ (by norm_num [MAX_ACCEL]), clampLimit_le _ _,
   clampLimit_nonneg _ _ (by norm_num [MAX_VELOCITY]), clampLimit_le _ _,
   rfl, rfl, rfl⟩

/-- C9: for every kind value other than 0, 1 and 2, `add_condition` produces
no command string: the Python local `script` is never assigned, the
subsequent `script +=` raises, modelled as `none`. -/
theorem C9_add_condition_invalid_kind (k : ℤ)
    (h0 : k ≠ 0) (h1 : k ≠ 1) (h2 : k ≠ 2) (con : String) (b : Bool) :
    add_condition k con b = none := by
  simp only [add_condition, if_neg h0, if_neg h1, if_neg h2]

/-- C9 witness: `C9_add_condition_invalid_kind` at the concrete kind `7`. -/
theorem C9_add_condition_invalid_kind_witness : add_condition 7 "x" true = none :=
  C9_add_condition_invalid_kind 7 (by decide) (by decide) (by decide) "x" true

/-- C10: every command-producing operation of the module except
`multi_conditions` returns, whenever it returns at all, a string whose final
character is a newline, while `multi_conditions` returns a string containing
no newline character anywhere. -/
theorem C10_newline_discipline (pl refpl : Plane) (a v r x y z : ℚ) (aa : ℚ × ℚ × ℚ)
    (joints : List ℚ) (k : ℤ) (b : Bool)
    (msg title t1 t2 i sig nCh fCh tm c1 c2 con : String) :
    endsWithNewline (move_l pl a v) = true ∧
    endsWithNewline (move_l_blend pl a v r) = true ∧
    endsWithNewline (move_p_blend pl a v r) = true ∧
    Option.all endsWithNewline (move_j joints a v) = true ∧
    endsWithNewline (set_tcp_by_plane x y z refpl) = true ∧
    endsWithNewline (set_tcp_by_angles x y z aa) = true ∧
    endsWithNewline (popup msg title) = true ∧
    endsWithNewline (sleep tm) = true ∧
    endsWithNewline (set_digital_out i sig) = true ∧
    endsWithNewline (get_digital_in i) = true ∧
    endsWithNewline (set_standard_analog_out nCh fCh) = true ∧
    endsWithNewline (textmsg t1 t2) = true ∧
    Option.all endsWithNewline (add_condition k con b) = true ∧
    endsWithNewline end_condition = true ∧
    newlineFree (multi_conditions c1 c2) = true := by
  refine ⟨endsWithNewline_append _ _ (by decide), endsWithNewline_append _ _ (by decide),
    endsWithNewline_append _ _ (by decide), ?_,
    endsWithNewline_append _ _ (by decide), endsWithNewline_append _ _ (by decide),
    endsWithNewline_append _ _ (by decide), endsWithNewline_append _ _ (by decide),
    endsWithNewline_append _ _ (by decide), endsWithNewline_append _ _ (by decide),
    endsWithNewline_append _ _ (by decide), endsWithNewline_append _ _ (by decide),
    ?_, by decide, multi_conditions_newlineFree c1 c2⟩
  · simp only [move_j]
    split
    · simp only [Option.all]
      exact endsWithNewline_append _ _ (by decide)
    · rfl
  · simp only [add_condition]
    split
    · simp only [Option.all]
      exact endsWithNewline_append _ _ (conditionTail_endsWithNewline con b)
    · split
      · simp only [Option.all]
        exact endsWithNewline_append _ _ (conditionTail_endsWithNewline con b)
      · split
        · simp only [Option.all]
          exact endsWithNewline_append _ _ (conditionTail_endsWithNewline con b)
        · rfl

end SimpleURScript
